import Mathlib

/-!
Shallow embedding of `llama_stack/providers/adapters/safety/bedrock/bedrock.py`
(class `BedrockSafetyAdapter`).

The adapter has two operations:

* `initialize` — checks that an AWS profile is configured (python truthiness
  of `config.aws_profile`) and constructs a boto session/client; both failure
  modes raise `RuntimeError` to the caller.
* `run_shield(shield_type, messages, params=None)` — validates that `params`
  contains the keys `guardrailIdentifier` and `guardrailVersion` (membership
  only), converts each message to a content block built from its `content`
  field, issues one `apply_guardrail` call with `source="OUTPUT"`, and
  interprets the response: on `action == "GUARDRAIL_INTERVENED"` it loops over
  `outputs` and `assessments` keeping the last values; otherwise it falls
  through.  The whole body sits inside `try/except Exception`, which logs and
  returns `None`.

Python exceptions are modelled by `Except BedrockError`; the outer catch-all
is the wrapper `run_shield` around `run_shield_body`.  Remote calls are
modelled by a client function `ApplyGuardrailRequest → Except BedrockError
GuardrailResponse`, and the list of requests issued is returned alongside the
result so that claims about "exactly one remote call" and "no network call"
are statable.  Python dicts are association lists over strings.
-/

/-- Association-list model of a python `dict` with string keys and
string-rendered values. -/
abbrev Dict := List (String × String)

/-- Lookup of a key in a dict: value of the first matching entry. -/
def dictLookup (d : Dict) (k : String) : Option String :=
  (d.find? (fun kv => kv.fst = k)).map Prod.snd

/-- Membership test `k in d` of python: the lookup succeeds. -/
def dictContains (d : Dict) (k : String) : Bool :=
  (dictLookup d k).isSome

/-- An incoming chat message (`UserMessage` etc. from llama_models): a role
tag and a content payload.  Only `content` is used by the adapter. -/
structure Message where
  role : String
  content : String
deriving DecidableEq

/-- Inner object of a content block: the python literal `\x7b"text": s\x7d`. -/
structure TextText where
  text : String
deriving DecidableEq

/-- Wire shape the remote service expects for one message:
`\x7b"text": \x7b"text": s\x7d\x7d`. -/
structure ContentBlock where
  text : TextText
deriving DecidableEq

/-- The request of one `apply_guardrail` call.  The identifier and version are
obtained with `params.get(...)`, which yields an optional value. -/
structure ApplyGuardrailRequest where
  guardrailIdentifier : Option String
  guardrailVersion : Option String
  source : String
  content : List ContentBlock
deriving DecidableEq

/-- The shape of the remote response consumed by the adapter: a top-level
`action` string, a list of output entries and a list of assessment entries,
each entry a dict. -/
structure GuardrailResponse where
  action : String
  outputs : List Dict
  assessments : List Dict
deriving DecidableEq

/-- Violation severity levels of the safety API. -/
inductive ViolationLevel where
  | INFO
  | WARN
  | ERROR
deriving DecidableEq

/-- The violation record built by the adapter. -/
structure SafetyViolation where
  user_message : String
  violation_level : ViolationLevel
  metadata : Dict
deriving DecidableEq

/-- Python exceptions that can arise in the adapter. -/
inductive BedrockError where
  | typeError
  | runtimeError (msg : String)
  | keyError (key : String)
  | clientError (msg : String)
deriving DecidableEq

/-- Message of the `RuntimeError` raised when `guardrailIdentifier` is
absent. -/
def missingIdMsg : String :=
  "Error running request for BedrockGaurdrails:Missing GuardrailID in request"

/-- Message of the `RuntimeError` raised when `guardrailVersion` is
absent. -/
def missingVerMsg : String :=
  "Error running request for BedrockGaurdrails:Missing guardrailVersion in request"

/-- Message of the `RuntimeError` raised by the profile check at
initialization. -/
def missingProfileMsg : String :=
  "Missing boto_client aws_profile in model info"

/-- Message of the `RuntimeError` wrapping a session-construction failure. -/
def initFailMsg : String :=
  "Error initializing BedrockSafetyAdapter"

/-- The content blocks built from the messages: one block per message, in
order, from the `content` field only. -/
def content_messages (messages : List Message) : List ContentBlock :=
  messages.map (fun m => ContentBlock.mk (TextText.mk m.content))

/-- The single `apply_guardrail` request issued for given params and
messages. -/
def mkRequest (p : Dict) (messages : List Message) : ApplyGuardrailRequest :=
  { guardrailIdentifier := dictLookup p "guardrailIdentifier"
    guardrailVersion := dictLookup p "guardrailVersion"
    source := "OUTPUT"
    content := content_messages messages }

/-- The loop `for output in response["outputs"]: user_message =
output["text"]`: each iteration indexes `"text"` (a missing key raises
`KeyError`), and the last value wins.  `acc` is the current value of
`user_message`, initially the empty string. -/
def lastOutputText : List Dict → String → Except BedrockError String
  | [], acc => Except.ok acc
  | o :: rest, _ =>
    match dictLookup o "text" with
    | none => Except.error (BedrockError.keyError "text")
    | some t => lastOutputText rest t

/-- The loop `for assessment in response["assessments"]: metadata =
dict(assessment)`: the last entry wins, initially the empty dict. -/
def lastAssessment (assessments : List Dict) : Dict :=
  assessments.foldl (fun _ a => a) []

/-- Interpretation of a successfully returned response: on
`action == "GUARDRAIL_INTERVENED"` extract the last output text and the last
assessment and build a violation with hardcoded `ERROR` level; otherwise fall
through (no violation). -/
def interpretResponse (response : GuardrailResponse) :
    Except BedrockError (Option SafetyViolation) :=
  if response.action = "GUARDRAIL_INTERVENED" then
    match lastOutputText response.outputs "" with
    | Except.error e => Except.error e
    | Except.ok user_message =>
        Except.ok (some
          { user_message := user_message
            violation_level := ViolationLevel.ERROR
            metadata := lastAssessment response.assessments })
  else
    Except.ok none

/-- Body of `run_shield` inside the `try` block: result (or exception) paired
with the list of remote requests issued.  `params` is optional because the
python signature defaults it to `None`; the membership test on `None` raises
`TypeError`. -/
def run_shield_body
    (client : ApplyGuardrailRequest → Except BedrockError GuardrailResponse)
    (messages : List Message) (params : Option Dict) :
    Except BedrockError (Option SafetyViolation) × List ApplyGuardrailRequest :=
  match params with
  | none => (Except.error BedrockError.typeError, [])
  | some p =>
    if dictContains p "guardrailIdentifier" = false then
      (Except.error (BedrockError.runtimeError missingIdMsg), [])
    else if dictContains p "guardrailVersion" = false then
      (Except.error (BedrockError.runtimeError missingVerMsg), [])
    else
      let req := mkRequest p messages
      (match client req with
       | Except.error e => Except.error e
       | Except.ok response => interpretResponse response, [req])

/-- The full `run_shield`: the body wrapped in `try/except Exception`, which
logs any error and returns `None`.  `shield_type` is accepted but unused, as
in the source. -/
def run_shield
    (client : ApplyGuardrailRequest → Except BedrockError GuardrailResponse)
    (shield_type : String) (messages : List Message) (params : Option Dict) :
    Option SafetyViolation × List ApplyGuardrailRequest :=
  match run_shield_body client messages params with
  | (Except.ok v, calls) => (v, calls)
  | (Except.error _, calls) => (none, calls)

/-- The adapter configuration: the AWS profile, which python treats as falsy
when `None` or empty. -/
structure BedrockSafetyConfig where
  aws_profile : Option String
deriving DecidableEq

/-- Python truthiness check `not self.config.aws_profile`. -/
def pyFalsy : Option String → Bool
  | none => true
  | some s => s = ""

/-- The `initialize` method: raise `RuntimeError` if no profile is configured,
otherwise construct the boto session/client; a session-construction failure is
wrapped in a `RuntimeError` and re-raised.  The second component records the
profiles passed to the session constructor, so "before any session creation"
is statable. -/
def initializeAdapter {α : Type} (mkSession : String → Except BedrockError α)
    (config : BedrockSafetyConfig) : Except BedrockError α × List String :=
  if pyFalsy config.aws_profile then
    (Except.error (BedrockError.runtimeError missingProfileMsg), [])
  else
    match mkSession (config.aws_profile.getD "") with
    | Except.ok c => (Except.ok c, [config.aws_profile.getD ""])
    | Except.error _ =>
        (Except.error (BedrockError.runtimeError initFailMsg),
         [config.aws_profile.getD ""])

/-! ### Helper lemmas -/

/-- The request log of `run_shield` is that of its body: the catch-all does
not undo calls already issued. -/
theorem run_shield_snd (client : ApplyGuardrailRequest → Except BedrockError GuardrailResponse)
    (shield_type : String) (messages : List Message) (params : Option Dict) :
    (run_shield client shield_type messages params).snd =
      (run_shield_body client messages params).snd := by
  unfold run_shield
  rcases h : run_shield_body client messages params with ⟨r, calls⟩
  cases r <;> simp

/-- With both keys present, the body issues exactly the one request
`mkRequest p messages` and returns the interpretation of the client's
answer. -/
theorem run_shield_body_valid (client : ApplyGuardrailRequest → Except BedrockError GuardrailResponse)
    (messages : List Message) (p : Dict)
    (h1 : dictContains p "guardrailIdentifier" = true)
    (h2 : dictContains p "guardrailVersion" = true) :
    run_shield_body client messages (some p) =
      (match client (mkRequest p messages) with
       | Except.error e => Except.error e
       | Except.ok response => interpretResponse response,
       [mkRequest p messages]) := by
  unfold run_shield_body
  simp [h1, h2]

/-- If every output entry has a `"text"` key, the extraction loop succeeds and
yields the text of the last entry. -/
theorem lastOutputText_all (outputs : List Dict) (lastO : Dict) (t : String)
    (hall : ∀ o ∈ outputs, dictContains o "text" = true)
    (hlast : outputs.getLast? = some lastO)
    (ht : dictLookup lastO "text" = some t) :
    ∀ acc, lastOutputText outputs acc = Except.ok t := by
  induction outputs with
  | nil => simp at hlast
  | cons o rest ih =>
    intro acc
    have ho : dictContains o "text" = true := hall o (by simp)
    rcases hv : dictLookup o "text" with _ | v
    · rw [dictContains, hv] at ho; simp at ho
    · have hrest : ∀ x ∈ rest, dictContains x "text" = true := by
        intro x hx; exact hall x (by simp [hx])
      simp only [lastOutputText, hv]
      cases rest with
      | nil =>
        simp only [List.getLast?_singleton, Option.some.injEq] at hlast
        subst hlast
        rw [hv] at ht
        simp only [Option.some.injEq] at ht
        simp [lastOutputText, ht]
      | cons r rs =>
        rw [List.getLast?_cons_cons] at hlast
        exact ih hrest hlast v

/-- The assessment loop keeps the last entry (the empty dict when there is
none). -/
theorem lastAssessment_eq (assessments : List Dict) :
    lastAssessment assessments = assessments.getLast?.getD [] := by
  unfold lastAssessment
  suffices h : ∀ (init : Dict), assessments.foldl (fun _ a => a) init =
      assessments.getLast?.getD init by
    exact h []
  induction assessments with
  | nil => intro init; simp
  | cons a rest ih =>
    intro init
    rw [List.foldl_cons, ih a]
    cases rest with
    | nil => simp
    | cons r rs =>
      rcases hx : (r :: rs).getLast? with _ | x
      · simp at hx
      · simp [List.getLast?_cons_cons, hx]

/-! ### Concrete fixtures for witnesses and counterexamples -/

/-- A sample one-message input. -/
def sampleMessages : List Message := [{ role := "user", content := "hello" }]

/-- Params with both keys present and non-empty. -/
def sampleParams : Dict := [("guardrailIdentifier", "gid"), ("guardrailVersion", "1")]

/-- Params with both keys present but both values empty strings. -/
def emptyValParams : Dict := [("guardrailIdentifier", ""), ("guardrailVersion", "")]

/-- A response where the guardrail intervened with two outputs and two
assessments. -/
def sampleResponse : GuardrailResponse :=
  { action := "GUARDRAIL_INTERVENED"
    outputs := [[("text", "a")], [("text", "b")]]
    assessments := [[("k", "1")], [("k", "2")]] }

/-- A client that always answers with `sampleResponse`. -/
def clientIntervened : ApplyGuardrailRequest → Except BedrockError GuardrailResponse :=
  fun _ => Except.ok sampleResponse

/-- A client that always answers with a non-intervention action. -/
def clientPassed : ApplyGuardrailRequest → Except BedrockError GuardrailResponse :=
  fun _ => Except.ok { action := "NONE", outputs := [], assessments := [] }

/-- A client that answers intervention with empty outputs and assessments. -/
def clientEmptyIntervened : ApplyGuardrailRequest → Except BedrockError GuardrailResponse :=
  fun _ =>
    Except.ok { action := "GUARDRAIL_INTERVENED", outputs := [], assessments := [] }

/-- The violation `run_shield` builds from `sampleResponse` (last-wins). -/
def sampleViolation : SafetyViolation :=
  { user_message := "b", violation_level := ViolationLevel.ERROR, metadata := [("k", "2")] }

/-- A session constructor that always fails. -/
def mkSessionFail : String → Except BedrockError Nat :=
  fun _ => Except.error (BedrockError.clientError "boom")

/-! ### Claim theorems -/

/-- C1: any error raised during parameter validation, the remote call, or
response parsing is caught inside `run_shield`: whenever the body raises an
exception, `run_shield` returns "no violation" (`none`) to the caller, and by
its return type it never propagates an exception. -/
theorem run_shield_never_propagates
    (client : ApplyGuardrailRequest → Except BedrockError GuardrailResponse)
    (shield_type : String) (messages : List Message) (params : Option Dict)
    (e : BedrockError) (calls : List ApplyGuardrailRequest)
    (h : run_shield_body client messages params = (Except.error e, calls)) :
    run_shield client shield_type messages params = (none, calls) := by
  unfold run_shield
  rw [h]

/-- Witness for C1: with `params = None` the body raises `TypeError`, and the
caller sees `(none, [])`. -/
theorem run_shield_never_propagates_witness :
    run_shield_body clientIntervened sampleMessages none =
      (Except.error BedrockError.typeError, []) ∧
    run_shield clientIntervened "shield" sampleMessages none = (none, []) :=
  ⟨rfl, run_shield_never_propagates clientIntervened "shield" sampleMessages none
    BedrockError.typeError [] rfl⟩

/-- C9: calling `run_shield` with the default `params=None` returns "no
violation" without issuing any remote call: the membership test on `None`
raises, and the outer catch swallows the error. -/
theorem run_shield_default_params (client : ApplyGuardrailRequest → Except BedrockError GuardrailResponse)
    (shield_type : String) (messages : List Message) :
    run_shield client shield_type messages none = (none, []) := rfl

/-- C6: when `guardrailIdentifier` or `guardrailVersion` is absent from
`params`, `run_shield` returns "no violation" to the caller rather than
raising, and issues no remote call. -/
theorem run_shield_missing_key_none (client : ApplyGuardrailRequest → Except BedrockError GuardrailResponse)
    (shield_type : String) (messages : List Message) (p : Dict)
    (h : dictContains p "guardrailIdentifier" = false ∨
      dictContains p "guardrailVersion" = false) :
    run_shield client shield_type messages (some p) = (none, []) := by
  unfold run_shield run_shield_body
  rcases h with h | h
  · simp [h]
  · rcases h1 : dictContains p "guardrailIdentifier" with _ | _ <;> simp [h1, h]

/-- Witness for C6: params holding only the version key lack the identifier
key, and the caller sees `(none, [])` with no call issued. -/
theorem run_shield_missing_key_none_witness :
    (dictContains [("guardrailVersion", "1")] "guardrailIdentifier" = false ∨
      dictContains [("guardrailVersion", "1")] "guardrailVersion" = false) ∧
    run_shield clientIntervened "shield" sampleMessages
      (some [("guardrailVersion", "1")]) = (none, []) :=
  ⟨Or.inl rfl,
   run_shield_missing_key_none clientIntervened "shield" sampleMessages
     [("guardrailVersion", "1")] (Or.inl rfl)⟩

/-- C2: with both keys present in `params`, `run_shield` issues exactly one
remote `apply_guardrail` call whose content list has exactly one block per
input message, in order, each built only from that message's `content` field,
tagged with `source = "OUTPUT"`. -/
theorem run_shield_one_call (client : ApplyGuardrailRequest → Except BedrockError GuardrailResponse)
    (shield_type : String) (messages : List Message) (p : Dict)
    (h1 : dictContains p "guardrailIdentifier" = true)
    (h2 : dictContains p "guardrailVersion" = true) :
    (run_shield client shield_type messages (some p)).snd = [mkRequest p messages] ∧
    (mkRequest p messages).source = "OUTPUT" ∧
    (mkRequest p messages).content.length = messages.length ∧
    ∀ i : Nat, (mkRequest p messages).content[i]? =
      messages[i]?.map (fun m => ContentBlock.mk (TextText.mk m.content)) := by
  refine ⟨?_, rfl, ?_, ?_⟩
  · rw [run_shield_snd, run_shield_body_valid client messages p h1 h2]
  · simp [mkRequest, content_messages]
  · intro i
    simp [mkRequest, content_messages, List.getElem?_map]

/-- Witness for C2 at the sample inputs. -/
theorem run_shield_one_call_witness :
    dictContains sampleParams "guardrailIdentifier" = true ∧
    dictContains sampleParams "guardrailVersion" = true ∧
    (run_shield clientIntervened "shield" sampleMessages (some sampleParams)).snd =
      [mkRequest sampleParams sampleMessages] :=
  ⟨rfl, rfl,
   (run_shield_one_call clientIntervened "shield" sampleMessages sampleParams
     rfl rfl).1⟩

/-- C4: when the remote response's `action` is not `"GUARDRAIL_INTERVENED"`,
`run_shield` returns "no violation" regardless of the rest of the
response. -/
theorem run_shield_not_intervened (client : ApplyGuardrailRequest → Except BedrockError GuardrailResponse)
    (shield_type : String) (messages : List Message) (p : Dict)
    (resp : GuardrailResponse)
    (h1 : dictContains p "guardrailIdentifier" = true)
    (h2 : dictContains p "guardrailVersion" = true)
    (hc : client (mkRequest p messages) = Except.ok resp)
    (ha : resp.action ≠ "GUARDRAIL_INTERVENED") :
    (run_shield client shield_type messages (some p)).fst = none := by
  unfold run_shield
  rw [run_shield_body_valid client messages p h1 h2, hc]
  simp [interpretResponse, ha]

/-- Witness for C4: `clientPassed` answers with `action = "NONE"` and the
caller sees no violation. -/
theorem run_shield_not_intervened_witness :
    dictContains sampleParams "guardrailIdentifier" = true ∧
    dictContains sampleParams "guardrailVersion" = true ∧
    clientPassed (mkRequest sampleParams sampleMessages) =
      Except.ok { action := "NONE", outputs := [], assessments := [] } ∧
    (run_shield clientPassed "shield" sampleMessages (some sampleParams)).fst = none :=
  ⟨rfl, rfl, rfl,
   run_shield_not_intervened clientPassed "shield" sampleMessages sampleParams
     { action := "NONE", outputs := [], assessments := [] } rfl rfl rfl
     (by decide)⟩

/-- C3: when the remote response's `action` is `"GUARDRAIL_INTERVENED"`, the
returned violation's message is the text of the last entry of `outputs` and
its metadata is the last entry of `assessments` (last-wins). -/
theorem run_shield_last_wins (client : ApplyGuardrailRequest → Except BedrockError GuardrailResponse)
    (shield_type : String) (messages : List Message) (p : Dict)
    (resp : GuardrailResponse) (lastO lastA : Dict) (t : String)
    (h1 : dictContains p "guardrailIdentifier" = true)
    (h2 : dictContains p "guardrailVersion" = true)
    (hc : client (mkRequest p messages) = Except.ok resp)
    (ha : resp.action = "GUARDRAIL_INTERVENED")
    (hall : ∀ o ∈ resp.outputs, dictContains o "text" = true)
    (hlast : resp.outputs.getLast? = some lastO)
    (ht : dictLookup lastO "text" = some t)
    (hA : resp.assessments.getLast? = some lastA) :
    (run_shield client shield_type messages (some p)).fst =
      some { user_message := t, violation_level := ViolationLevel.ERROR,
             metadata := lastA } := by
  unfold run_shield
  rw [run_shield_body_valid client messages p h1 h2, hc]
  simp [interpretResponse, ha, lastOutputText_all resp.outputs lastO t hall hlast ht,
    lastAssessment_eq, hA]

/-- Witness for C3 at the sample response with two outputs and two
assessments: the second of each wins. -/
theorem run_shield_last_wins_witness :
    (run_shield clientIntervened "shield" sampleMessages (some sampleParams)).fst =
      some { user_message := "b", violation_level := ViolationLevel.ERROR,
             metadata := [("k", "2")] } :=
  run_shield_last_wins clientIntervened "shield" sampleMessages sampleParams
    sampleResponse [("text", "b")] [("k", "2")] "b" rfl rfl rfl rfl
    (by decide) rfl rfl rfl

/-- C10: when the response's `action` is `"GUARDRAIL_INTERVENED"` but both
`outputs` and `assessments` are empty, `run_shield` still returns a violation
whose message is the empty string and whose metadata is the empty mapping. -/
theorem run_shield_intervened_empty (client : ApplyGuardrailRequest → Except BedrockError GuardrailResponse)
    (shield_type : String) (messages : List Message) (p : Dict)
    (resp : GuardrailResponse)
    (h1 : dictContains p "guardrailIdentifier" = true)
    (h2 : dictContains p "guardrailVersion" = true)
    (hc : client (mkRequest p messages) = Except.ok resp)
    (ha : resp.action = "GUARDRAIL_INTERVENED")
    (ho : resp.outputs = []) (hA : resp.assessments = []) :
    (run_shield client shield_type messages (some p)).fst =
      some { user_message := "", violation_level := ViolationLevel.ERROR,
             metadata := [] } := by
  unfold run_shield
  rw [run_shield_body_valid client messages p h1 h2, hc]
  simp [interpretResponse, ha, ho, hA, lastOutputText, lastAssessment]

/-- Witness for C10 with `clientEmptyIntervened`. -/
theorem run_shield_intervened_empty_witness :
    (run_shield clientEmptyIntervened "shield" sampleMessages (some sampleParams)).fst =
      some { user_message := "", violation_level := ViolationLevel.ERROR,
             metadata := [] } :=
  run_shield_intervened_empty clientEmptyIntervened "shield" sampleMessages
    sampleParams { action := "GUARDRAIL_INTERVENED", outputs := [], assessments := [] }
    rfl rfl rfl rfl rfl rfl

/-- Every successful violation produced by the body carries the hardcoded
`ERROR` level: the only place a violation is built sets it. -/
theorem run_shield_body_ok_some (client : ApplyGuardrailRequest → Except BedrockError GuardrailResponse)
    (messages : List Message) (params : Option Dict) (v : SafetyViolation)
    (calls : List ApplyGuardrailRequest)
    (h : run_shield_body client messages params = (Except.ok (some v), calls)) :
    v.violation_level = ViolationLevel.ERROR := by
  cases params with
  | none => simp [run_shield_body] at h
  | some p =>
    rcases h1 : dictContains p "guardrailIdentifier" with _ | _
    · simp [run_shield_body, h1] at h
    · rcases h2 : dictContains p "guardrailVersion" with _ | _
      · simp [run_shield_body, h1, h2] at h
      · rw [run_shield_body_valid client messages p h1 h2] at h
        rcases hc : client (mkRequest p messages) with e | resp <;> rw [hc] at h
        · simp at h
        · have hi : interpretResponse resp = Except.ok (some v) :=
            congrArg Prod.fst h
          rw [interpretResponse] at hi
          split at hi
          · split at hi
            · simp at hi
            · simp only [Except.ok.injEq, Option.some.injEq] at hi
              rw [← hi]
          · simp at hi

/-- C7: every violation returned by `run_shield` has level `ERROR`; no other
severity is ever produced, regardless of the remote response. -/
theorem run_shield_level_always_error (client : ApplyGuardrailRequest → Except BedrockError GuardrailResponse)
    (shield_type : String) (messages : List Message) (params : Option Dict)
    (v : SafetyViolation) (calls : List ApplyGuardrailRequest)
    (h : run_shield client shield_type messages params = (some v, calls)) :
    v.violation_level = ViolationLevel.ERROR := by
  unfold run_shield at h
  rcases hb : run_shield_body client messages params with ⟨r, cs⟩
  rw [hb] at h
  cases r with
  | error e => simp at h
  | ok w =>
    simp only [Prod.mk.injEq] at h
    obtain ⟨hw, hcs⟩ := h
    exact run_shield_body_ok_some client messages params v calls
      (by rw [hb, hw, hcs])

/-- Witness for C7: the violation returned for `sampleResponse` has level
`ERROR`. -/
theorem run_shield_level_always_error_witness :
    run_shield clientIntervened "shield" sampleMessages (some sampleParams) =
      (some sampleViolation, [mkRequest sampleParams sampleMessages]) ∧
    sampleViolation.violation_level = ViolationLevel.ERROR :=
  ⟨by decide,
   run_shield_level_always_error clientIntervened "shield" sampleMessages
     (some sampleParams) sampleViolation [mkRequest sampleParams sampleMessages]
     (by decide)⟩

/-- C5 counterexample: with both keys present but both values equal to the
empty string, validation passes and the remote call is issued (and here even
returns a violation), refuting that an empty value fails validation before
any network call. -/
theorem empty_value_params_still_call :
    (run_shield clientIntervened "shield" sampleMessages (some emptyValParams)).snd =
      [mkRequest emptyValParams sampleMessages] ∧
    (run_shield_body clientIntervened sampleMessages (some emptyValParams)).fst =
      Except.ok (some sampleViolation) := by
  exact ⟨rfl, rfl⟩

/-- C5 amended: validation checks key presence only.  A params missing
`guardrailIdentifier` (or having it but missing `guardrailVersion`) raises a
missing-parameter `RuntimeError` before any network call; params holding both
keys — even with empty-string values — pass validation and the one remote
call is issued. -/
theorem validation_checks_presence_only
    (client : ApplyGuardrailRequest → Except BedrockError GuardrailResponse)
    (messages : List Message) (p : Dict) :
    (dictContains p "guardrailIdentifier" = false →
      run_shield_body client messages (some p) =
        (Except.error (BedrockError.runtimeError missingIdMsg), [])) ∧
    (dictContains p "guardrailIdentifier" = true →
      dictContains p "guardrailVersion" = false →
      run_shield_body client messages (some p) =
        (Except.error (BedrockError.runtimeError missingVerMsg), [])) ∧
    (dictContains p "guardrailIdentifier" = true →
      dictContains p "guardrailVersion" = true →
      (run_shield_body client messages (some p)).snd = [mkRequest p messages]) := by
  refine ⟨?_, ?_, ?_⟩
  · intro h1
    simp [run_shield_body, h1]
  · intro h1 h2
    simp [run_shield_body, h1, h2]
  · intro h1 h2
    rw [run_shield_body_valid client messages p h1 h2]

/-- Witness for the amended C5: all three branches at concrete params. -/
theorem validation_checks_presence_only_witness :
    (dictContains ([] : Dict) "guardrailIdentifier" = false ∧
      run_shield_body clientIntervened sampleMessages (some []) =
        (Except.error (BedrockError.runtimeError missingIdMsg), [])) ∧
    (dictContains [("guardrailIdentifier", "gid")] "guardrailVersion" = false ∧
      run_shield_body clientIntervened sampleMessages
          (some [("guardrailIdentifier", "gid")]) =
        (Except.error (BedrockError.runtimeError missingVerMsg), [])) ∧
    (dictContains emptyValParams "guardrailIdentifier" = true ∧
      dictContains emptyValParams "guardrailVersion" = true ∧
      (run_shield_body clientIntervened sampleMessages (some emptyValParams)).snd =
        [mkRequest emptyValParams sampleMessages]) :=
  ⟨⟨rfl, (validation_checks_presence_only clientIntervened sampleMessages []).1 rfl⟩,
   ⟨rfl, (validation_checks_presence_only clientIntervened sampleMessages
      [("guardrailIdentifier", "gid")]).2.1 rfl rfl⟩,
   rfl, rfl,
   (validation_checks_presence_only clientIntervened sampleMessages
      emptyValParams).2.2 rfl rfl⟩

/-- C8: `initializeAdapter` raises a fatal error to its caller when no
profile is configured (python-falsy `aws_profile`), and it does so before any
session construction is attempted (empty attempt log); a failure during
session construction is also raised to the caller rather than suppressed. -/
theorem initializeAdapter_failures (α : Type)
    (mkSession : String → Except BedrockError α) (config : BedrockSafetyConfig) :
    (pyFalsy config.aws_profile = true →
      initializeAdapter mkSession config =
        (Except.error (BedrockError.runtimeError missingProfileMsg), [])) ∧
    (∀ s e, config.aws_profile = some s → pyFalsy config.aws_profile = false →
      mkSession s = Except.error e →
      initializeAdapter mkSession config =
        (Except.error (BedrockError.runtimeError initFailMsg), [s])) := by
  constructor
  · intro h
    simp [initializeAdapter, h]
  · intro s e hprof hfalsy hfail
    rw [initializeAdapter, hfalsy]
    simp only [Bool.false_eq_true, if_false]
    rw [hprof]
    simp [hfail]

/-- Witness for C8: a missing profile fails before any session attempt, and a
failing session constructor propagates as an error. -/
theorem initializeAdapter_failures_witness :
    (pyFalsy (none : Option String) = true ∧
      initializeAdapter mkSessionFail { aws_profile := none } =
        (Except.error (BedrockError.runtimeError missingProfileMsg), [])) ∧
    (pyFalsy (some "prof") = false ∧
      mkSessionFail "prof" = Except.error (BedrockError.clientError "boom") ∧
      initializeAdapter mkSessionFail { aws_profile := some "prof" } =
        (Except.error (BedrockError.runtimeError initFailMsg), ["prof"])) :=
  ⟨⟨rfl, (initializeAdapter_failures Nat mkSessionFail { aws_profile := none }).1 rfl⟩,
   rfl, rfl,
   (initializeAdapter_failures Nat mkSessionFail { aws_profile := some "prof" }).2
     "prof" (BedrockError.clientError "boom") rfl rfl rfl⟩
